import Mathlib

/-!
Verification development for the `loggery-rs` logging library
(`src/lib.rs`).  The library is a thin wrapper around an append-mode
file handle: a `Logger` holds `Option<File>`, `init` opens a path with
create + write + append flags, `log_content` writes one formatted line
and flushes, `Clone` duplicates the OS handle via `try_clone`, `Default`
initializes against `./.yash.log` and returns a clone, `Drop` unwraps a
final flush, and the `todoy!` entry point logs a `[TODO]` line
best-effort and then panics via `todo!`.

The file system is modelled abstractly: file contents are a map from
paths to optional strings (a missing file is `none`), open handles are
numeric descriptors in a handle table mapping each descriptor to the
path it was opened on, and the environment's nondeterminism (whether an
open, write, flush or handle duplication succeeds) is passed in as
explicit boolean oracles, mirroring the `Result`-returning calls of the
source.
-/

/-- The `LogLevel` enumeration from `src/lib.rs` (lines 14-20):
`Error`, `Warn`, `Info`, `Todo`. -/
inductive LogLevel where
  | Error : LogLevel
  | Warn : LogLevel
  | Info : LogLevel
  | Todo : LogLevel
deriving DecidableEq, Repr

/-- The `fmt::Display` implementation for `LogLevel` (lines 22-31):
each variant renders as its bracketed tag. -/
def LogLevel.display : LogLevel → String
  | .Error => "[ERROR]"
  | .Warn => "[WARN]"
  | .Info => "[INFO]"
  | .Todo => "[TODO]"

/-- `DEFAULT_FILENAME` from `src/lib.rs` line 12. -/
def DEFAULT_FILENAME : String := "./.yash.log"

/-- Abstract file-system state.  `contents p = none` means no file
exists at path `p`.  `writable p` is the environment's verdict on
whether an `OpenOptions::create(true).write(true).append(true).open(p)`
call succeeds (it fails when the path is unwritable or its containing
directory is missing).  `handleTarget` is the table of open descriptors,
and `nextHandle` is the next fresh descriptor. -/
structure FS where
  contents : String → Option String
  writable : String → Bool
  handleTarget : Nat → Option String
  nextHandle : Nat

/-- Opening a path with create-if-absent + write + append flags.
On success the file is created empty when absent, existing bytes are
kept untouched (no truncation), and a fresh descriptor pointing at the
path is returned.  On failure (`writable p = false`) nothing changes. -/
def FS.openAppend (fs : FS) (p : String) : Option (Nat × FS) :=
  if fs.writable p then
    some (fs.nextHandle,
      { fs with
        contents := fun q => if q = p then some ((fs.contents p).getD "") else fs.contents q,
        handleTarget := fun h => if h = fs.nextHandle then some p else fs.handleTarget h,
        nextHandle := fs.nextHandle + 1 })
  else
    none

/-- Appending bytes through an open descriptor: the file the descriptor
points at grows by `s` at its end (append-mode write). -/
def FS.appendTo (fs : FS) (h : Nat) (s : String) : FS :=
  match fs.handleTarget h with
  | some p =>
      { fs with
        contents := fun q => if q = p then some ((fs.contents q).getD "" ++ s) else fs.contents q }
  | none => fs

/-- The `Logger` struct from `src/lib.rs` (lines 35-37): an optional
open file handle. -/
structure Logger where
  file : Option Nat
deriving DecidableEq, Repr

/-- `Logger::new` (lines 40-42): a logger holding no handle. -/
def Logger.new : Logger := ⟨none⟩

/-- Result of `Logger::init` on a `&mut self` receiver: `ok` records
whether `Ok` was returned, `logger` is the state of `self` after the
call, `fs` the file system after the call. -/
structure InitResult where
  ok : Bool
  logger : Logger
  fs : FS

/-- `Logger::init` (lines 44-52): open the path with create + write +
append; on success store the new handle (replacing any previous one);
on failure the `?` operator returns early and `self.file` is left
exactly as it was. -/
def Logger.init (l : Logger) (p : String) (fs : FS) : InitResult :=
  match fs.openAppend p with
  | some (h, fs') => ⟨true, ⟨some h⟩, fs'⟩
  | none => ⟨false, l, fs⟩

/-- Outcome of `Logger::log_content`: `panic` is the `unwrap` crash on
a missing handle, `err fs` an `Err(_)` return with the file system as
left behind, `ok fs` an `Ok(())` return. -/
inductive LogResult where
  | panic : LogResult
  | err : FS → LogResult
  | ok : FS → LogResult

/-- `Logger::log_content` (lines 54-59): `self.file.as_ref().unwrap()`
panics when no handle is held; otherwise `writeln!(file, "{} {}", level,
message)` appends the tag, a space, the message and a newline, then
`file.flush()` runs.  `writeOk` and `flushOk` are the environment's
verdicts on the two fallible calls; a failed write appends nothing, a
failed flush errors after the bytes were already written. -/
def Logger.log_content (l : Logger) (lv : LogLevel) (msg : String)
    (fs : FS) (writeOk flushOk : Bool) : LogResult :=
  match l.file with
  | none => .panic
  | some h =>
      if writeOk then
        let fs' := fs.appendTo h (lv.display ++ " " ++ msg ++ "\n")
        if flushOk then .ok fs' else .err fs'
      else .err fs

/-- `Logger::info` (lines 61-64). -/
def Logger.info (l : Logger) (msg : String) (fs : FS) (w f : Bool) : LogResult :=
  l.log_content .Info msg fs w f

/-- `Logger::warn` (lines 66-69). -/
def Logger.warn (l : Logger) (msg : String) (fs : FS) (w f : Bool) : LogResult :=
  l.log_content .Warn msg fs w f

/-- `Logger::error` (lines 71-74). -/
def Logger.error (l : Logger) (msg : String) (fs : FS) (w f : Bool) : LogResult :=
  l.log_content .Error msg fs w f

/-- `Logger::todo` (lines 76-79). -/
def Logger.todo (l : Logger) (msg : String) (fs : FS) (w f : Bool) : LogResult :=
  l.log_content .Todo msg fs w f

/-- `impl Clone for Logger` (lines 82-90): start from `Logger::new`;
when the source holds a handle, `file.try_clone().ok()` duplicates the
OS handle — on success the copy holds a fresh descriptor pointing at
the same file, on failure (`cloneOk = false`) `.ok()` turns the error
into `None` and the copy holds no handle.  A source without a handle
yields a copy without a handle. -/
def Logger.clone (l : Logger) (fs : FS) (cloneOk : Bool) : Logger × FS :=
  match l.file with
  | none => (⟨none⟩, fs)
  | some h =>
      if cloneOk then
        match fs.handleTarget h with
        | some p =>
            (⟨some fs.nextHandle⟩,
              { fs with
                handleTarget := fun k => if k = fs.nextHandle then some p else fs.handleTarget k,
                nextHandle := fs.nextHandle + 1 })
        | none => (⟨none⟩, fs)
      else (⟨none⟩, fs)

/-- `impl Default for Logger` (lines 92-98): `init(DEFAULT_FILENAME)`
is `unwrap`ped — `none` models the panic when the open fails; on
success the function returns `instance.clone()`, not the freshly
initialized instance itself. -/
def Logger.defaultLogger (fs : FS) (cloneOk : Bool) : Option (Logger × FS) :=
  if (Logger.new.init DEFAULT_FILENAME fs).ok then
    some ((Logger.new.init DEFAULT_FILENAME fs).logger.clone
      (Logger.new.init DEFAULT_FILENAME fs).fs cloneOk)
  else none

/-- `impl Drop for Logger` (lines 100-106): when a handle is held,
`file.flush().unwrap()` runs — `some true` is a normal drop that
performed the flush, `none` the panic when the flush fails.  Without a
handle no flush happens (`some false`). -/
def Logger.drop (l : Logger) (flushOk : Bool) : Option Bool :=
  match l.file with
  | none => some false
  | some _ => if flushOk then some true else none

/-- Outcome of the `todoy!` macro (lines 137-144).  `ret` would be a
normal return of the write's result to the caller — the macro never
produces it; `todoPanic` is the unconditional `todo!` panic carrying
the message; `unwrapPanic` is the earlier crash inside the discarded
log write when no handle is held. -/
inductive TodoyOutcome where
  | ret : Bool → FS → TodoyOutcome
  | todoPanic : String → FS → TodoyOutcome
  | unwrapPanic : FS → TodoyOutcome

/-- `todoy!` (lines 137-144): `let _ = logger.todo(...)` discards the
`Result` of the `[TODO]` write, then `todo!` panics with the same
message.  Only a panic inside the write itself (missing handle) escapes
before the `todo!` is reached. -/
def todoy (l : Logger) (msg : String) (fs : FS) (w f : Bool) : TodoyOutcome :=
  match l.todo msg fs w f with
  | .panic => .unwrapPanic fs
  | .err fs' => .todoPanic msg fs'
  | .ok fs' => .todoPanic msg fs'

/-- `init_loggery` (lines 108-111): runs `init` on the singleton
logger and maps the mutation back; the `Ok` value is discarded and the
error propagated. -/
def init_loggery (l : Logger) (p : String) (fs : FS) : InitResult :=
  l.init p fs

/-- An empty, fully writable file system used for concrete runs. -/
def fs0 : FS where
  contents := fun _ => none
  writable := fun _ => true
  handleTarget := fun _ => none
  nextHandle := 0

/-- A file system on which every open fails. -/
def fsRO : FS where
  contents := fun _ => none
  writable := fun _ => false
  handleTarget := fun _ => none
  nextHandle := 0

/-- Observer: did a `log_content` call return `Ok(())`? -/
def LogResult.isOk : LogResult → Bool
  | .ok _ => true
  | _ => false

/-- Observer: the file system left behind by a non-panicking
`log_content` call, with a default for the panic case. -/
def LogResult.fsOr : LogResult → FS → FS
  | .ok fs, _ => fs
  | .err fs, _ => fs
  | .panic, d => d

theorem init_writable_spec (l : Logger) (p : String) (fs : FS)
    (hw : fs.writable p = true) :
    (l.init p fs).ok = true
      ∧ (l.init p fs).logger = ⟨some fs.nextHandle⟩
      ∧ (l.init p fs).fs.handleTarget fs.nextHandle = some p
      ∧ (l.init p fs).fs.contents p = some ((fs.contents p).getD "")
      ∧ (∀ q, q ≠ p → (l.init p fs).fs.contents q = fs.contents q)
      ∧ (l.init p fs).fs.nextHandle = fs.nextHandle + 1 := by
  refine ⟨?_, ?_, ?_, ?_, ?_, ?_⟩
  · simp [Logger.init, FS.openAppend, hw]
  · simp [Logger.init, FS.openAppend, hw]
  · simp [Logger.init, FS.openAppend, hw]
  · simp [Logger.init, FS.openAppend, hw]
  · intro q hq
    simp [Logger.init, FS.openAppend, hw, hq]
  · simp [Logger.init, FS.openAppend, hw]

theorem init_unwritable_spec (l : Logger) (p : String) (fs : FS)
    (hw : fs.writable p = false) :
    (l.init p fs).ok = false ∧ (l.init p fs).logger = l ∧ (l.init p fs).fs = fs := by
  simp [Logger.init, FS.openAppend, hw]

theorem log_ok_contents (l : Logger) (lv : LogLevel) (m : String) (fs fs' : FS)
    (h : Nat) (p : String) (w f : Bool)
    (hfile : l.file = some h) (htgt : fs.handleTarget h = some p)
    (hok : l.log_content lv m fs w f = .ok fs') :
    fs'.contents p = some ((fs.contents p).getD "" ++ (lv.display ++ " " ++ m ++ "\n"))
      ∧ (∀ q, q ≠ p → fs'.contents q = fs.contents q) := by
  unfold Logger.log_content at hok
  rw [hfile] at hok
  cases w with
  | false => simp at hok
  | true =>
    cases f with
    | false => simp at hok
    | true =>
      simp only [if_true] at hok
      cases hok
      refine ⟨by simp [FS.appendTo, htgt], ?_⟩
      intro q hq
      simp [FS.appendTo, htgt, hq]

theorem log_nonpanic_frame (l : Logger) (lv : LogLevel) (m : String) (fs fs' : FS)
    (h : Nat) (p : String) (w f : Bool)
    (hfile : l.file = some h) (htgt : fs.handleTarget h = some p)
    (hres : l.log_content lv m fs w f = .ok fs' ∨ l.log_content lv m fs w f = .err fs') :
    ∀ q, q ≠ p → fs'.contents q = fs.contents q := by
  intro q hq
  unfold Logger.log_content at hres
  rw [hfile] at hres
  cases w with
  | false =>
    rcases hres with hres | hres
    · simp at hres
    · simp only [if_false] at hres
      cases hres
      rfl
  | true =>
    cases f with
    | false =>
      rcases hres with hres | hres
      · simp at hres
      · simp only [if_true, if_false] at hres
        cases hres
        simp [FS.appendTo, htgt, hq]
    | true =>
      rcases hres with hres | hres
      · simp only [if_true] at hres
        cases hres
        simp [FS.appendTo, htgt, hq]
      · simp at hres

/-- A concrete run for witnesses: the file system after `init "a"` on
the empty writable file system (descriptor 0 points at `"a"`). -/
def c1fs : FS := (Logger.new.init "a" fs0).fs

/-- The file system after logging `[INFO] x` through descriptor 0. -/
def c1fs' : FS := c1fs.appendTo 0 ("[INFO]" ++ " " ++ "x" ++ "\n")

/-- C1: for every level and message, a successful `log_content` call
appends to the target file exactly the bytes tag, space, message,
newline — nothing else, and no other file changes; the tags are
`[ERROR]`, `[WARN]`, `[INFO]`, `[TODO]`. -/
theorem log_appends_exact_line (l : Logger) (lv : LogLevel) (m : String)
    (fs fs' : FS) (h : Nat) (p : String) (w f : Bool)
    (hfile : l.file = some h) (htgt : fs.handleTarget h = some p)
    (hok : l.log_content lv m fs w f = .ok fs') :
    fs'.contents p = some ((fs.contents p).getD "" ++ (lv.display ++ " " ++ m ++ "\n"))
      ∧ (∀ q, q ≠ p → fs'.contents q = fs.contents q)
      ∧ LogLevel.display .Error = "[ERROR]"
      ∧ LogLevel.display .Warn = "[WARN]"
      ∧ LogLevel.display .Info = "[INFO]"
      ∧ LogLevel.display .Todo = "[TODO]" := by
  obtain ⟨h1, h2⟩ := log_ok_contents l lv m fs fs' h p w f hfile htgt hok
  exact ⟨h1, h2, rfl, rfl, rfl, rfl⟩

/-- Witness for C1 at a concrete run: logging `x` at level `Info` to a
fresh file `"a"` leaves exactly `"[INFO] x\n"` in it. -/
theorem log_appends_exact_line_witness :
    c1fs.handleTarget 0 = some "a"
    ∧ (Logger.mk (some 0)).log_content .Info "x" c1fs true true = .ok c1fs'
    ∧ c1fs'.contents "a" = some "[INFO] x\n" := by
  refine ⟨rfl, rfl, ?_⟩
  have h := log_appends_exact_line (Logger.mk (some 0)) .Info "x" c1fs c1fs'
    0 "a" true true rfl rfl rfl
  exact h.1.trans (by decide)

/-- C2: every log operation on a logger holding no handle is the
unwrap panic — never a recoverable `Err` and never a silent `Ok`. -/
theorem log_without_handle_panics (lv : LogLevel) (m : String) (fs : FS) (w f : Bool) :
    (Logger.mk none).log_content lv m fs w f = .panic
    ∧ (Logger.mk none).info m fs w f = .panic
    ∧ (Logger.mk none).warn m fs w f = .panic
    ∧ (Logger.mk none).error m fs w f = .panic
    ∧ (Logger.mk none).todo m fs w f = .panic
    ∧ (∀ fs', (LogResult.panic ≠ .err fs') ∧ (LogResult.panic ≠ .ok fs')) := by
  refine ⟨rfl, rfl, rfl, rfl, rfl, ?_⟩
  intro fs'
  exact ⟨fun hc => LogResult.noConfusion hc, fun hc => LogResult.noConfusion hc⟩

/-- C3: on a logger holding a handle, `todoy!` always ends in the
`todo!` panic carrying the same message, whether the write succeeded
(`w = true`) or failed (`w = false`); and for any logger whatsoever the
macro never returns the write's result to the caller. -/
theorem todoy_always_aborts (l : Logger) (h : Nat) (msg : String) (fs : FS) (w f : Bool) :
    (∃ fs', todoy ⟨some h⟩ msg fs w f = .todoPanic msg fs')
    ∧ (∀ r fs', todoy l msg fs w f ≠ .ret r fs') := by
  constructor
  · unfold todoy Logger.todo Logger.log_content
    cases w with
    | false => exact ⟨fs, rfl⟩
    | true =>
      cases f with
      | true => exact ⟨_, rfl⟩
      | false => exact ⟨_, rfl⟩
  · intro r fs'
    unfold todoy Logger.todo Logger.log_content
    rcases l with ⟨fo⟩
    cases fo with
    | none => exact fun hc => TodoyOutcome.noConfusion hc
    | some h2 =>
      cases w with
      | false => exact fun hc => TodoyOutcome.noConfusion hc
      | true =>
        cases f with
        | false => exact fun hc => TodoyOutcome.noConfusion hc
        | true => exact fun hc => TodoyOutcome.noConfusion hc

/-- The `Clone` implementation never changes any file's contents. -/
theorem clone_preserves_contents (l : Logger) (fs : FS) (c : Bool) :
    ((l.clone fs c).2).contents = fs.contents := by
  unfold Logger.clone
  rcases l with ⟨fo⟩
  cases fo with
  | none => rfl
  | some h =>
    cases c with
    | false => rfl
    | true =>
      cases htg : fs.handleTarget h with
      | none => simp [htg]
      | some p => simp [htg]

/-- A temp file `"a"` already holding `"existing\n"` on an otherwise
empty, writable file system. -/
def c4fs : FS where
  contents := fun q => if q = "a" then some "existing\n" else none
  writable := fun _ => true
  handleTarget := fun _ => none
  nextHandle := 0

/-- C4: `init` opens with create-if-absent + write + append flags: on a
writable path it succeeds, installs a fresh handle on that path
(replacing whatever handle was held before), preserves every
pre-existing byte (no truncation; an absent file is created empty),
touches no other file, and subsequent successful log lines land after
the preserved bytes; on an unwritable path (or one whose directory is
missing) it fails with the I/O error. -/
theorem init_open_semantics (l : Logger) (p : String) (fs : FS) :
    (fs.writable p = true →
      (l.init p fs).ok = true
        ∧ (l.init p fs).logger = ⟨some fs.nextHandle⟩
        ∧ (l.init p fs).fs.handleTarget fs.nextHandle = some p
        ∧ (l.init p fs).fs.contents p = some ((fs.contents p).getD "")
        ∧ (∀ q, q ≠ p → (l.init p fs).fs.contents q = fs.contents q)
        ∧ (∀ lv m fs', (l.init p fs).logger.log_content lv m (l.init p fs).fs true true = .ok fs' →
            fs'.contents p = some ((fs.contents p).getD "" ++ (lv.display ++ " " ++ m ++ "\n"))))
    ∧ (fs.writable p = false → (l.init p fs).ok = false) := by
  constructor
  · intro hw
    obtain ⟨h1, h2, h3, h4, h5, h6⟩ := init_writable_spec l p fs hw
    refine ⟨h1, h2, h3, h4, h5, ?_⟩
    intro lv m fs' hok
    have hc := log_ok_contents ((l.init p fs).logger) lv m ((l.init p fs).fs) fs'
      fs.nextHandle p true true (by rw [h2]) h3 hok
    rw [hc.1, h4]
    simp
  · intro hw
    exact (init_unwritable_spec l p fs hw).1

/-- Witness for C4, the spec's scenario: `init` on a file holding
`"existing\n"` keeps those bytes, and a subsequent `warn("y")` yields
`"existing\n[WARN] y\n"`. -/
theorem init_open_semantics_witness :
    c4fs.writable "a" = true
    ∧ (Logger.new.init "a" c4fs).ok = true
    ∧ (Logger.new.init "a" c4fs).fs.contents "a" = some "existing\n"
    ∧ (((Logger.new.init "a" c4fs).logger.warn "y"
        (Logger.new.init "a" c4fs).fs true true).fsOr c4fs).contents "a"
        = some "existing\n[WARN] y\n" := by
  have h := (init_open_semantics Logger.new "a" c4fs).1 rfl
  refine ⟨rfl, h.1, h.2.2.2.1.trans (by decide), ?_⟩
  have hline := h.2.2.2.2.2 .Warn "y"
    (((Logger.new.init "a" c4fs).fs).appendTo 0 (LogLevel.display .Warn ++ " " ++ "y" ++ "\n")) rfl
  exact hline.trans (by decide)

/-- C5: default construction of the singleton opens the fixed default
path `./.yash.log` in append mode (pre-existing bytes preserved); when
that open fails it panics (models as `none`) instead of returning a
logger that lost its handle to a failed open. -/
theorem default_construction_spec (fs : FS) (cloneOk : Bool) :
    (fs.writable DEFAULT_FILENAME = false → Logger.defaultLogger fs cloneOk = none)
    ∧ (fs.writable DEFAULT_FILENAME = true →
        ∃ l fs', Logger.defaultLogger fs cloneOk = some (l, fs')
          ∧ fs'.contents DEFAULT_FILENAME = some ((fs.contents DEFAULT_FILENAME).getD "")
          ∧ DEFAULT_FILENAME = "./.yash.log") := by
  constructor
  · intro hw
    have h1 := (init_unwritable_spec Logger.new DEFAULT_FILENAME fs hw).1
    unfold Logger.defaultLogger
    rw [h1]
    rfl
  · intro hw
    obtain ⟨h1, h2, h3, h4, h5, h6⟩ := init_writable_spec Logger.new DEFAULT_FILENAME fs hw
    refine ⟨((Logger.new.init DEFAULT_FILENAME fs).logger.clone
        (Logger.new.init DEFAULT_FILENAME fs).fs cloneOk).1,
      ((Logger.new.init DEFAULT_FILENAME fs).logger.clone
        (Logger.new.init DEFAULT_FILENAME fs).fs cloneOk).2, ?_, ?_, rfl⟩
    · unfold Logger.defaultLogger
      rw [h1]
      simp only [if_true]
    · rw [clone_preserves_contents]
      exact h4

/-- Witness for C5: on the all-unwritable file system the default
construction panics; on the empty writable one it succeeds and leaves
an empty `./.yash.log`. -/
theorem default_construction_spec_witness :
    fsRO.writable DEFAULT_FILENAME = false
    ∧ Logger.defaultLogger fsRO true = none
    ∧ fs0.writable DEFAULT_FILENAME = true
    ∧ ∃ l fs', Logger.defaultLogger fs0 true = some (l, fs')
        ∧ fs'.contents DEFAULT_FILENAME = some "" := by
  refine ⟨rfl, (default_construction_spec fsRO true).1 rfl, rfl, ?_⟩
  obtain ⟨l, fs', he, hc, -⟩ := (default_construction_spec fs0 true).2 rfl
  exact ⟨l, fs', he, hc.trans (by decide)⟩

/-- C9: default construction returns `instance.clone()`, not the
initialized instance itself: when the open of the default path
succeeds but handle duplication fails, the returned singleton holds no
handle, and any log on it is the unwrap panic; when duplication
succeeds the returned handle is the clone's fresh descriptor, distinct
from the one the freshly initialized instance held. -/
theorem default_returns_clone_quirk (fs : FS)
    (hw : fs.writable DEFAULT_FILENAME = true) :
    (∃ fs', Logger.defaultLogger fs false = some (⟨none⟩, fs')
        ∧ ∀ lv m fs2 w f, (Logger.mk none).log_content lv m fs2 w f = .panic)
    ∧ (∃ fs', Logger.defaultLogger fs true = some (⟨some (fs.nextHandle + 1)⟩, fs')
        ∧ (Logger.new.init DEFAULT_FILENAME fs).logger = ⟨some fs.nextHandle⟩
        ∧ fs.nextHandle + 1 ≠ fs.nextHandle) := by
  obtain ⟨h1, h2, h3, h4, h5, h6⟩ := init_writable_spec Logger.new DEFAULT_FILENAME fs hw
  constructor
  · refine ⟨(Logger.new.init DEFAULT_FILENAME fs).fs, ?_, fun lv m fs2 w f => rfl⟩
    unfold Logger.defaultLogger
    rw [h1]
    simp only [if_true]
    rw [h2]
    rfl
  · refine ⟨((Logger.new.init DEFAULT_FILENAME fs).logger.clone
        (Logger.new.init DEFAULT_FILENAME fs).fs true).2, ?_, h2, by omega⟩
    have hx : ((Logger.new.init DEFAULT_FILENAME fs).logger.clone
        (Logger.new.init DEFAULT_FILENAME fs).fs true).1 = ⟨some (fs.nextHandle + 1)⟩ := by
      rw [h2]
      simp [Logger.clone, h3, h6]
    unfold Logger.defaultLogger
    rw [h1]
    simp only [if_true]
    rw [← hx, Prod.mk.eta]

/-- Witness for C9: on the empty writable file system the default open
succeeds; with failed duplication the returned singleton holds no
handle and logging on it panics. -/
theorem default_returns_clone_quirk_witness :
    fs0.writable DEFAULT_FILENAME = true
    ∧ (∃ fs', Logger.defaultLogger fs0 false = some (⟨none⟩, fs'))
    ∧ (Logger.mk none).log_content .Info "x" fs0 true true = .panic := by
  obtain ⟨⟨fs', he, hp⟩, -⟩ := default_returns_clone_quirk fs0 rfl
  exact ⟨rfl, ⟨fs', he⟩, hp .Info "x" fs0 true true⟩

/-- C6 (amended to distinct paths): re-initializing to `p2 ≠ p1` leaves
`p1`'s bytes untouched, every subsequent non-panicking log call leaves
`p1` untouched, and a successful one appends its line to `p2`. -/
theorem reinit_redirects_and_preserves_old (l : Logger) (p1 p2 : String) (fs : FS)
    (hne : p1 ≠ p2) (hw : fs.writable p2 = true) (lv : LogLevel) (m : String) (w f : Bool) :
    (l.init p2 fs).fs.contents p1 = fs.contents p1
    ∧ (∀ fs', ((l.init p2 fs).logger.log_content lv m (l.init p2 fs).fs w f = .ok fs'
          ∨ (l.init p2 fs).logger.log_content lv m (l.init p2 fs).fs w f = .err fs') →
        fs'.contents p1 = fs.contents p1)
    ∧ (∀ fs', (l.init p2 fs).logger.log_content lv m (l.init p2 fs).fs w f = .ok fs' →
        fs'.contents p2 = some (((l.init p2 fs).fs.contents p2).getD ""
          ++ (lv.display ++ " " ++ m ++ "\n"))) := by
  obtain ⟨h1, h2, h3, h4, h5, h6⟩ := init_writable_spec l p2 fs hw
  have hp1 := h5 p1 hne
  refine ⟨hp1, ?_, ?_⟩
  · intro fs' hres
    have hfr := log_nonpanic_frame ((l.init p2 fs).logger) lv m ((l.init p2 fs).fs) fs'
      fs.nextHandle p2 w f (by rw [h2]) h3 hres
    exact (hfr p1 hne).trans hp1
  · intro fs' hok
    exact (log_ok_contents ((l.init p2 fs).logger) lv m ((l.init p2 fs).fs) fs'
      fs.nextHandle p2 w f (by rw [h2]) h3 hok).1

/-- A file system where `"a"` already holds one logged line, as left
behind by logging to a first target. -/
def c6wfs : FS where
  contents := fun q => if q = "a" then some "[INFO] old\n" else none
  writable := fun _ => true
  handleTarget := fun _ => none
  nextHandle := 0

/-- Witness for the amended C6 at `p1 = "a"`, `p2 = "b"`: the old line
in `"a"` survives the re-init and the subsequent write lands in `"b"`. -/
theorem reinit_redirects_witness :
    ("a" : String) ≠ "b"
    ∧ c6wfs.writable "b" = true
    ∧ ((Logger.mk (some 5)).init "b" c6wfs).fs.contents "a" = some "[INFO] old\n"
    ∧ ((((Logger.mk (some 5)).init "b" c6wfs).logger.log_content .Warn "y"
        ((Logger.mk (some 5)).init "b" c6wfs).fs true true).fsOr c6wfs).contents "b"
        = some "[WARN] y\n" := by
  have h := reinit_redirects_and_preserves_old (Logger.mk (some 5)) "a" "b" c6wfs
    (by decide) rfl .Warn "y" true true
  refine ⟨by decide, rfl, h.1.trans (by decide), ?_⟩
  have hline := h.2.2 ((((Logger.mk (some 5)).init "b" c6wfs).fs).appendTo 0
    (LogLevel.display .Warn ++ " " ++ "y" ++ "\n")) rfl
  exact hline.trans (by decide)

/-- The run refuting C6 as stated, at `p1 = p2 = "a"`: init to `"a"`. -/
def c6A : InitResult := Logger.new.init "a" fs0

/-- ... log one line to `"a"` ... -/
def c6fs1 : FS := (c6A.logger.log_content .Info "x" c6A.fs true true).fsOr c6A.fs

/-- ... re-initialize to the pair's second path, again `"a"` ... -/
def c6B : InitResult := c6A.logger.init "a" c6fs1

/-- ... and make one subsequent log call. -/
def c6res : LogResult := c6B.logger.log_content .Warn "y" c6B.fs true true

/-- Counterexample to C6 as stated ("for every pair of paths p1 and
p2 ... every subsequent log call ... appends nothing to p1"): with
p1 = p2 = "a", the re-init succeeds and the subsequent successful log
call appends `"[WARN] y\n"` to p1. -/
theorem reinit_same_path_appends_to_old :
    c6B.ok = true
    ∧ c6res.isOk = true
    ∧ c6B.fs.contents "a" = some "[INFO] x\n"
    ∧ (c6res.fsOr c6B.fs).contents "a" = some "[INFO] x\n[WARN] y\n"
    ∧ (c6res.fsOr c6B.fs).contents "a" ≠ c6B.fs.contents "a" := by
  refine ⟨rfl, rfl, by decide, by decide, by decide⟩

/-- C7: cloning a logger that holds a valid handle duplicates the OS
handle: the copy receives a fresh descriptor, distinct from the
original's, pointing at the same file; the original descriptor stays
valid; and successful writes through either side append their line to
that same file.  When duplication fails the copy holds no handle, and
any log on it is the unwrap panic of the missing-handle precondition. -/
theorem clone_duplicates_handle (l : Logger) (fs : FS) (h : Nat) (p : String)
    (hfile : l.file = some h) (htgt : fs.handleTarget h = some p)
    (hfresh : h < fs.nextHandle) :
    ((l.clone fs true).1.file = some fs.nextHandle
      ∧ fs.nextHandle ≠ h
      ∧ (l.clone fs true).2.handleTarget fs.nextHandle = some p
      ∧ (l.clone fs true).2.handleTarget h = some p
      ∧ (∀ lv m fs', l.log_content lv m (l.clone fs true).2 true true = .ok fs' →
          fs'.contents p = some (((l.clone fs true).2.contents p).getD ""
            ++ (lv.display ++ " " ++ m ++ "\n")))
      ∧ (∀ lv m fs', (l.clone fs true).1.log_content lv m (l.clone fs true).2 true true = .ok fs' →
          fs'.contents p = some (((l.clone fs true).2.contents p).getD ""
            ++ (lv.display ++ " " ++ m ++ "\n"))))
    ∧ ((l.clone fs false).1.file = none
      ∧ (∀ lv m fs2 w f, (l.clone fs false).1.log_content lv m fs2 w f = .panic)) := by
  have hct : l.clone fs true =
      (⟨some fs.nextHandle⟩,
        { fs with
          handleTarget := fun k => if k = fs.nextHandle then some p else fs.handleTarget k,
          nextHandle := fs.nextHandle + 1 }) := by
    rw [show l = Logger.mk (some h) from by rcases l with ⟨fo⟩; simpa using hfile]
    simp [Logger.clone, htgt]
  have hcf : l.clone fs false = (⟨none⟩, fs) := by
    rw [show l = Logger.mk (some h) from by rcases l with ⟨fo⟩; simpa using hfile]
    simp [Logger.clone]
  have hne : h ≠ fs.nextHandle := Nat.ne_of_lt hfresh
  have htgt2 : (l.clone fs true).2.handleTarget h = some p := by
    rw [hct]
    simp [hne, htgt]
  have htgt1 : (l.clone fs true).2.handleTarget fs.nextHandle = some p := by
    rw [hct]
    simp
  refine ⟨⟨?_, hne.symm, htgt1, htgt2, ?_, ?_⟩, ?_, ?_⟩
  · rw [hct]
  · intro lv m fs' hok
    exact (log_ok_contents l lv m ((l.clone fs true).2) fs' h p true true hfile htgt2 hok).1
  · intro lv m fs' hok
    exact (log_ok_contents ((l.clone fs true).1) lv m ((l.clone fs true).2) fs'
      fs.nextHandle p true true (by rw [hct]) htgt1 hok).1
  · rw [hcf]
  · intro lv m fs2 w f
    rw [hcf]
    rfl

/-- Witness for C7 on the concrete state after `init "a"`: descriptor 0
is duplicated to descriptor 1 on success, and a failed duplication
leaves the copy without a handle. -/
theorem clone_duplicates_handle_witness :
    c1fs.handleTarget 0 = some "a"
    ∧ 0 < c1fs.nextHandle
    ∧ ((Logger.mk (some 0)).clone c1fs true).1.file = some 1
    ∧ ((Logger.mk (some 0)).clone c1fs false).1.file = none := by
  have h := clone_duplicates_handle (Logger.mk (some 0)) c1fs 0 "a" rfl rfl (by decide)
  exact ⟨rfl, by decide, h.1.1.trans (by decide), h.2.1⟩

/-- C8: a failed `init` is atomic on the logger's state: the held
handle (or its absence) and the file system are exactly as before the
call, so subsequent log calls behave as if the failed init never
happened. -/
theorem init_failure_atomic (l : Logger) (p : String) (fs : FS)
    (hfail : (l.init p fs).ok = false) :
    (l.init p fs).logger = l
    ∧ (l.init p fs).fs = fs
    ∧ (∀ lv m w f, (l.init p fs).logger.log_content lv m (l.init p fs).fs w f
        = l.log_content lv m fs w f) := by
  cases hv : fs.writable p with
  | true =>
    have := (init_writable_spec l p fs hv).1
    rw [this] at hfail
    exact absurd hfail (by simp)
  | false =>
    obtain ⟨-, h2, h3⟩ := init_unwritable_spec l p fs hv
    exact ⟨h2, h3, fun lv m w f => by rw [h2, h3]⟩

/-- Witness for C8: on the all-unwritable file system, `init` fails and
the logger keeps its old handle 5 with files untouched. -/
theorem init_failure_atomic_witness :
    ((Logger.mk (some 5)).init "a" fsRO).ok = false
    ∧ ((Logger.mk (some 5)).init "a" fsRO).logger = Logger.mk (some 5)
    ∧ ((Logger.mk (some 5)).init "a" fsRO).fs.contents "a" = none := by
  have h := init_failure_atomic (Logger.mk (some 5)) "a" fsRO rfl
  refine ⟨rfl, h.1, ?_⟩
  rw [h.2.1]
  rfl

/-- C10: dropping a logger that holds a handle performs the final
flush and unwraps its result — a failed flush panics (`none`), a
successful one is a normal drop that did flush (`some true`); a logger
holding no handle drops normally without performing any flush
(`some false`). -/
theorem drop_flush_semantics (l : Logger) (h : Nat) (hfile : l.file = some h) :
    l.drop true = some true
    ∧ l.drop false = none
    ∧ (∀ l2 : Logger, l2.file = none → ∀ f, l2.drop f = some false) := by
  refine ⟨?_, ?_, ?_⟩
  · unfold Logger.drop
    rw [hfile]
    rfl
  · unfold Logger.drop
    rw [hfile]
    rfl
  · intro l2 h2 f
    unfold Logger.drop
    rw [h2]

/-- Witness for C10 at a concrete logger with handle 0. -/
theorem drop_flush_semantics_witness :
    (Logger.mk (some 0)).drop true = some true
    ∧ (Logger.mk (some 0)).drop false = none
    ∧ (Logger.mk none).drop true = some false := by
  have h := drop_flush_semantics (Logger.mk (some 0)) 0 rfl
  exact ⟨h.1, h.2.1, h.2.2 (Logger.mk none) rfl true⟩

/-- Witness for C2 at a concrete call: a handle-less logger's
`log_content` is the unwrap panic. -/
theorem log_without_handle_panics_witness :
    (Logger.mk none).log_content .Info "x" fs0 true true = .panic :=
  (log_without_handle_panics .Info "x" fs0 true true).1

/-- Witness for C3 at a concrete call: `todoy` on a logger holding
handle 0 ends in the `todo!` panic carrying its message. -/
theorem todoy_always_aborts_witness :
    ∃ fs', todoy (Logger.mk (some 0)) "x" fs0 true true = .todoPanic "x" fs' :=
  (todoy_always_aborts (Logger.mk (some 0)) 0 "x" fs0 true true).1
